import Mathlib

/-!
Shallow embedding of the `dorable-3dprinter-api` contract layer.

The repository under verification is a pure interface layer
(`printer_interface.py`, `ams_interface.py`, `filament_interface.py`,
`camera_interface.py`): every method of `IPrinter`, `IAMS`, `IAMSHub`,
`IFilamentTray` and `IPrinterCamera` is abstract.  The only concrete
executable code in the sources is the frozen dataclass
`AMSFilamentSettings`, the `NozzleType` enumeration, and the method
signatures themselves.  The data shapes and signatures below are
transcribed from the source files; the behaviour of the abstract
methods (which lives in an unseen concrete driver) is modelled from the
specification, and each such definition is marked `Modelled from the
spec:` in its doc comment.

Python `float` fields carry no arithmetic in this layer; they are
embedded as `Rat`.  Python `bytes` is embedded as `List Nat`, Python
`dict`-shaped raw records as association lists `List (String × RawVal)`.
-/

namespace Dorable3DPrinterApi

/-- A value occurring in a raw key-value record fed to `from_dict`,
`process_trays` or `parse_list` (string, integer, float, or list of
strings for the optional `cols` field). -/
inductive RawVal where
  | vStr (s : String)
  | vInt (n : Int)
  | vNum (q : Rat)
  | vStrList (l : List String)
  deriving DecidableEq, Repr

/-- A raw flat key-value record (Python `dict[str, Any]`). -/
abbrev Record : Type := List (String × RawVal)

/-- `dataclasses.dataclass(frozen=True) class AMSFilamentSettings` from
`filament_interface.py`: `tray_info_idx: str`, `nozzle_temp_min: int`,
`nozzle_temp_max: int`, `tray_type: str`. -/
structure AMSFilamentSettings where
  tray_info_idx : String
  nozzle_temp_min : Int
  nozzle_temp_max : Int
  tray_type : String
  deriving DecidableEq, Repr

/-- The tuple of declared fields of `AMSFilamentSettings`, in declaration
order.  A Python frozen dataclass derives `__eq__` and `__hash__` from
exactly this tuple. -/
def AMSFilamentSettings.fieldsTuple (a : AMSFilamentSettings) :
    String × Int × Int × String :=
  (a.tray_info_idx, a.nozzle_temp_min, a.nozzle_temp_max, a.tray_type)

/-- The errors of the filament-tray layer.  The error taxonomy of the
contract gives exactly one structural error for malformed raw records:
`MissingFieldError`, carrying the offending field name. -/
inductive FTError where
  | missingFieldError (field : String)
  deriving DecidableEq, Repr

/-- The declared fields of `IFilamentTray` (`filament_interface.py`,
constructor signature of `IFilamentTray.__init__`): `k: float`,
`n: int`, sixteen string-typed identity fields, the two integer nozzle
temperature bounds, and the optional `cols: list[str] | None = None`. -/
structure FilamentTray where
  k : Rat
  n : Int
  tag_uid : String
  tray_id_name : String
  tray_info_idx : String
  tray_type : String
  tray_sub_brands : String
  tray_color : String
  tray_weight : String
  tray_diameter : String
  tray_temp : String
  tray_time : String
  bed_temp_type : String
  bed_temp : String
  nozzle_temp_max : Int
  nozzle_temp_min : Int
  xcam_info : String
  tray_uuid : String
  cols : Option (List String)
  deriving DecidableEq, Repr

/-- The declared field names of `FilamentTray`, in the order of the
`IFilamentTray.__init__` signature. -/
def declaredFieldNames : List String :=
  ["k", "n", "tag_uid", "tray_id_name", "tray_info_idx", "tray_type",
   "tray_sub_brands", "tray_color", "tray_weight", "tray_diameter",
   "tray_temp", "tray_time", "bed_temp_type", "bed_temp",
   "nozzle_temp_max", "nozzle_temp_min", "xcam_info", "tray_uuid", "cols"]

/-- The required field names: every declared field except `cols`, whose
default value in the constructor signature is `None`. -/
def requiredFieldNames : List String :=
  ["k", "n", "tag_uid", "tray_id_name", "tray_info_idx", "tray_type",
   "tray_sub_brands", "tray_color", "tray_weight", "tray_diameter",
   "tray_temp", "tray_time", "bed_temp_type", "bed_temp",
   "nozzle_temp_max", "nozzle_temp_min", "xcam_info", "tray_uuid"]

/-- The declared field-name set of `FilamentTray` (order-independent). -/
def declaredFieldSet : Finset String :=
  declaredFieldNames.toFinset

/-- Modelled from the spec: `keys()` of `IFilamentTray` "returns the
declared field-name set deterministically (order-independent; a set,
not a sequence)".  The method body is abstract in
`filament_interface.py`. -/
def FilamentTray.keys (_ : FilamentTray) : Finset String :=
  declaredFieldSet

/-- Look up a required string-valued field in a raw record; a missing or
non-string value is a `MissingFieldError`. -/
def getStr (r : Record) (key : String) : Except FTError String :=
  match r.lookup key with
  | some (RawVal.vStr s) => Except.ok s
  | _ => Except.error (FTError.missingFieldError key)

/-- Look up a required integer-valued field in a raw record. -/
def getInt (r : Record) (key : String) : Except FTError Int :=
  match r.lookup key with
  | some (RawVal.vInt n) => Except.ok n
  | _ => Except.error (FTError.missingFieldError key)

/-- Look up a required float-valued field in a raw record (an integer
value is accepted and widened, as Python does). -/
def getNum (r : Record) (key : String) : Except FTError Rat :=
  match r.lookup key with
  | some (RawVal.vNum q) => Except.ok q
  | some (RawVal.vInt n) => Except.ok (n : Rat)
  | _ => Except.error (FTError.missingFieldError key)

/-- Modelled from the spec: `from_dict(record)` of `IFilamentTray`
"constructs (or repopulates) a tray from a flat key-value record;
unknown keys are ignored, missing required keys produce a
`MissingFieldError`".  The method body is abstract in
`filament_interface.py`; the optional `cols` field defaults to its
constructor default `None` when absent. -/
def from_dict (r : Record) : Except FTError FilamentTray := do
  let k ← getNum r "k"
  let n ← getInt r "n"
  let tag_uid ← getStr r "tag_uid"
  let tray_id_name ← getStr r "tray_id_name"
  let tray_info_idx ← getStr r "tray_info_idx"
  let tray_type ← getStr r "tray_type"
  let tray_sub_brands ← getStr r "tray_sub_brands"
  let tray_color ← getStr r "tray_color"
  let tray_weight ← getStr r "tray_weight"
  let tray_diameter ← getStr r "tray_diameter"
  let tray_temp ← getStr r "tray_temp"
  let tray_time ← getStr r "tray_time"
  let bed_temp_type ← getStr r "bed_temp_type"
  let bed_temp ← getStr r "bed_temp"
  let nozzle_temp_max ← getInt r "nozzle_temp_max"
  let nozzle_temp_min ← getInt r "nozzle_temp_min"
  let xcam_info ← getStr r "xcam_info"
  let tray_uuid ← getStr r "tray_uuid"
  let cols : Option (List String) :=
    match r.lookup "cols" with
    | some (RawVal.vStrList l) => some l
    | _ => none
  Except.ok
    ⟨k, n, tag_uid, tray_id_name, tray_info_idx, tray_type,
     tray_sub_brands, tray_color, tray_weight, tray_diameter, tray_temp,
     tray_time, bed_temp_type, bed_temp, nozzle_temp_max,
     nozzle_temp_min, xcam_info, tray_uuid, cols⟩

/-- Modelled from the spec: the `filament` property of `IFilamentTray`
is "a pure, side-effect-free projection producing a `FilamentSettings`
from the tray's own nozzle-temperature and type fields".  The property
body is abstract in `filament_interface.py`. -/
def FilamentTray.filament (t : FilamentTray) : AMSFilamentSettings :=
  ⟨t.tray_info_idx, t.nozzle_temp_min, t.nozzle_temp_max, t.tray_type⟩

/-- The error of strict dictionary-style indexed access (`ams[i]`,
`hub[id]`): `KeyNotFoundError` (Python `KeyError`). -/
inductive KeyErr where
  | keyNotFoundError
  deriving DecidableEq, Repr

/-- The state of an `IAMS` unit (`ams_interface.py`): `humidity: int`,
`temperature: float`, and the `filament_trays` mapping from tray index
to tray (`Dict[int, IFilamentTray]`, embedded as a partial map). -/
structure AMS where
  humidity : Int
  temperature : Rat
  filament_trays : Int → Option FilamentTray

/-- Modelled from the spec: `get_filament_tray(index)` of `IAMS`
"returns the tray or an explicit absent signal (never throws for a
missing index)".  The method body is abstract in `ams_interface.py`,
whose docstring states: if no tray exists at the index, return None. -/
def AMS.get_filament_tray (s : AMS) (tray_index : Int) :
    Option FilamentTray :=
  s.filament_trays tray_index

/-- Modelled from the spec: `set_filament_tray(filament_tray,
tray_index)` of `IAMS` "performs an upsert at `index`, overwriting
silently if present".  The method body is abstract in
`ams_interface.py`. -/
def AMS.set_filament_tray (s : AMS) (filament_tray : FilamentTray)
    (tray_index : Int) : AMS :=
  { s with
    filament_trays := fun j =>
      if j = tray_index then some filament_tray else s.filament_trays j }

/-- Modelled from the spec: the strict indexing operator
`IAMS.__getitem__` raises `KeyNotFoundError` on a missing index.  The
method body is abstract in `ams_interface.py`, whose docstring states:
raises KeyError if no tray exists at the index. -/
def AMS.getitem (s : AMS) (index : Int) : Except KeyErr FilamentTray :=
  match s.filament_trays index with
  | some t => Except.ok t
  | none => Except.error KeyErr.keyNotFoundError

/-- Modelled from the spec: `IAMS.__setitem__` is the same upsert
operation as `set_filament_tray`. -/
def AMS.setitem (s : AMS) (index : Int)
    (filament_tray : FilamentTray) : AMS :=
  s.set_filament_tray filament_tray index

/-- The optional explicit slot index a raw tray record may carry (the
spec leaves the key unspecified; the conventional key `id` is used).
Records in the claims under verification carry no such field. -/
def trayExplicitIndex (r : Record) : Option Int :=
  match r.lookup "id" with
  | some (RawVal.vInt i) => some i
  | _ => none

/-- Build the tray mapping entries for `process_trays`: the record at
position `pos` of the input sequence is parsed with `from_dict` and
assigned its explicit index when it carries one, else the position. -/
def buildTrayEntries (pos : Nat) :
    List Record → Except FTError (List (Int × FilamentTray))
  | [] => Except.ok []
  | r :: rest => do
    let t ← from_dict r
    let idx := (trayExplicitIndex r).getD (Int.ofNat pos)
    let tail ← buildTrayEntries (pos + 1) rest
    Except.ok ((idx, t) :: tail)

/-- First-match lookup in a list of tray-mapping entries. -/
def alookup (j : Int) : List (Int × FilamentTray) → Option FilamentTray
  | [] => none
  | (k, t) :: rest => if j = k then some t else alookup j rest

/-- Modelled from the spec: `process_trays(records)` of `IAMS`
"replaces the current tray mapping: for each raw record in the input
sequence (in order), construct a `FilamentTray` via `from_dict` and
assign it the corresponding slot index; if a raw record specifies no
explicit index, slot index equals its position in the sequence".  The
method body is abstract in `ams_interface.py`.  The new mapping is
built solely from the records: the previous mapping is discarded. -/
def AMS.process_trays (s : AMS) (trays : List Record) :
    Except FTError AMS := do
  let entries ← buildTrayEntries 0 trays
  Except.ok { s with filament_trays := fun j => alookup j entries }

/-- The state of an `IAMSHub` (`ams_interface.py`): the `ams_hub`
mapping from AMS-unit id to AMS unit (`Dict[int, IAMS]`, embedded as a
partial map). -/
structure AMSHub where
  ams_hub : Int → Option AMS

/-- Modelled from the spec: the strict indexing operator
`IAMSHub.__getitem__` raises `KeyNotFoundError` for an absent AMS-unit
id, mirroring the AMS-level asymmetry; the lenient side of the
asymmetry is lookup in the underlying `ams_hub` mapping, which yields
the absent value.  The method body is abstract in `ams_interface.py`,
whose docstring states: raises KeyError if no AMS unit exists with the
given ID. -/
def AMSHub.getitem (h : AMSHub) (ind : Int) : Except KeyErr AMS :=
  match h.ams_hub ind with
  | some a => Except.ok a
  | none => Except.error KeyErr.keyNotFoundError

/-- Modelled from the spec: `IAMSHub.__setitem__` upserts the AMS unit
at the given id. -/
def AMSHub.setitem (h : AMSHub) (ind : Int) (item : AMS) : AMSHub :=
  ⟨fun j => if j = ind then some item else h.ams_hub j⟩

/-- The lifecycle states of the camera state machine of the spec:
`NotStarted → Running → Stopped`. -/
inductive CamStatus where
  | notStarted
  | running
  | stopped
  deriving DecidableEq, Repr

/-- The error raised by a camera frame read before any frame has been
received: `NoFrameAvailableError`. -/
inductive CamErr where
  | noFrameAvailableError
  deriving DecidableEq, Repr

/-- The state of an `IPrinterCamera` (`camera_interface.py`): the
connection parameters of `__init__` (`hostname`, `access_code`, `port`
default 6000, `username` default `bblp`), the lifecycle status, and the
single-slot last-frame cache (`Optional[bytes]`, embedded as an
optional byte list). -/
structure PrinterCamera where
  hostname : String
  access_code : String
  port : Int
  username : String
  status : CamStatus
  last_frame : Option (List Nat)

/-- The constructor of `IPrinterCamera`: a fresh camera is not started
and holds no frame.  The defaults of the signature are `port = 6000`
and `username = "bblp"`; they are passed explicitly here. -/
def mkPrinterCamera (hostname : String) (access_code : String)
    (port : Int) (username : String) : PrinterCamera :=
  ⟨hostname, access_code, port, username, CamStatus.notStarted, none⟩

/-- Modelled from the spec: `start()` of `IPrinterCamera` "transitions
NotStarted or Stopped to Running, spawning a background capture loop;
returns false (no-op) if already Running".  The method body is abstract
in `camera_interface.py`, whose docstring states: True if the camera
thread was started successfully, False if already running. -/
def PrinterCamera.start (s : PrinterCamera) : PrinterCamera × Bool :=
  if s.status = CamStatus.running then (s, false)
  else ({ s with status := CamStatus.running }, true)

/-- Modelled from the spec: `stop()` of `IPrinterCamera` "transitions
Running to Stopped, joins/cancels the background loop; idempotent when
already stopped".  The method body is abstract in
`camera_interface.py`. -/
def PrinterCamera.stop (s : PrinterCamera) : PrinterCamera :=
  if s.status = CamStatus.running then { s with status := CamStatus.stopped }
  else s

/-- Modelled from the spec: `is_alive` of `IPrinterCamera` "reports
whether the background loop is currently executing".  The property body
is abstract in `camera_interface.py`. -/
def PrinterCamera.is_alive (s : PrinterCamera) : Bool :=
  s.status = CamStatus.running

/-- Modelled from the spec: the background capture loop "decodes
incoming frames and overwrites the single-slot last-frame cache".  One
step of the loop, receiving a decoded frame. -/
def PrinterCamera.receive_frame (s : PrinterCamera)
    (frame : List Nat) : PrinterCamera :=
  { s with last_frame := some frame }

/-- Modelled from the spec: `get_frame_as_base64()` of `IPrinterCamera`
"encodes the current `last_frame`; signals a `NoFrameAvailableError` if
none exists yet".  The method body is abstract in
`camera_interface.py`; the base64 encoder itself lives in the unseen
concrete implementation and is taken as a parameter `enc`. -/
def PrinterCamera.get_frame_as_base64 (enc : List Nat → String)
    (s : PrinterCamera) : Except CamErr String :=
  match s.last_frame with
  | some f => Except.ok (enc f)
  | none => Except.error CamErr.noFrameAvailableError

/-- The error of local G-code validation: `InvalidGcodeError` (raised
as `ValueError` by the Python layer per the `IPrinter.gcode`
docstring). -/
inductive GcodeError where
  | invalidGcodeError
  deriving DecidableEq, Repr

/-- Modelled from the spec: `gcode(commands, gcode_check=true)` of
`IPrinter` "validates syntax locally when `gcode_check` is true and
signals `InvalidGcodeError` before any network transmission; when
false, validation is skipped and the command is sent as-is".  The
method body is abstract in `printer_interface.py`; the local syntax
validator lives in the unseen concrete implementation and is taken as a
parameter `valid`.  The result pairs the signalled error (if any) with
the list of commands transmitted over the network, in order. -/
def gcodeCommand (valid : String → Bool) (commands : List String)
    (gcode_check : Bool) : Option GcodeError × List String :=
  if gcode_check && commands.any (fun c => ! valid c) then
    (some GcodeError.invalidGcodeError, [])
  else
    (none, commands)

/-- The abstract methods of `IPrinter` (`printer_interface.py`), in
source order. -/
inductive PMethod where
  | camera_client_alive
  | mqtt_client_connected
  | mqtt_client_ready
  | current_layer_num
  | total_layer_num
  | camera_start
  | mqtt_start
  | mqtt_stop
  | camera_stop
  | connect
  | disconnect
  | get_time
  | mqtt_dump
  | get_percentage
  | get_state
  | get_print_speed
  | get_bed_temperature
  | get_nozzle_temperature
  | get_chamber_temperature
  | nozzle_type
  | nozzle_diameter
  | get_file_name
  | get_light_state
  | turn_light_on
  | turn_light_off
  | gcode
  | upload_file
  | start_print
  | stop_print
  | pause_print
  | resume_print
  | set_bed_temperature
  | home_printer
  | move_z_axis
  | set_filament_printer
  | set_nozzle_temperature
  | set_print_speed
  | delete_file
  | calibrate_printer
  | load_filament_spool
  | unload_filament_spool
  | retry_filament_action
  | get_camera_frame
  | get_camera_image
  | get_current_state
  | get_skipped_objects
  | skip_objects
  | set_part_fan_speed
  | set_aux_fan_speed
  | set_chamber_fan_speed
  | set_auto_step_recovery
  | vt_tray
  | printer_ams_hub
  | subtask_name
  | gcode_file
  | print_error_code
  | print_type
  | wifi_signal
  deriving DecidableEq, Repr

/-- The Python return-type annotations occurring on `IPrinter`
methods. -/
inductive PyRet where
  | pyBool
  | pyStr
  | pyNoneRet
  | pyInt
  | pyFloat
  | pyAny
  | pyOptionalFloat
  | pyIntStrNone
  | pyGcodeState
  | pyPrintState
  | pyNozzleType
  | pyDictAnyAny
  | pyListInt
  | pyImage
  | pyFilamentTray
  | pyAMSHub
  deriving DecidableEq, Repr

/-- The declared return type of each abstract method of `IPrinter`,
transcribed from the signatures in `printer_interface.py` (an
unannotated or procedure-style method maps to its annotation there:
`mqtt_stop`, `camera_stop`, `connect` and `disconnect` are annotated
`-> None`; `ams_hub` is the method returning `IAMSHub`, named
`printer_ams_hub` here to avoid clashing with the hub field). -/
def printerReturnType : PMethod → PyRet
  | PMethod.camera_client_alive => PyRet.pyBool
  | PMethod.mqtt_client_connected => PyRet.pyBool
  | PMethod.mqtt_client_ready => PyRet.pyBool
  | PMethod.current_layer_num => PyRet.pyInt
  | PMethod.total_layer_num => PyRet.pyInt
  | PMethod.camera_start => PyRet.pyBool
  | PMethod.mqtt_start => PyRet.pyAny
  | PMethod.mqtt_stop => PyRet.pyNoneRet
  | PMethod.camera_stop => PyRet.pyNoneRet
  | PMethod.connect => PyRet.pyNoneRet
  | PMethod.disconnect => PyRet.pyNoneRet
  | PMethod.get_time => PyRet.pyIntStrNone
  | PMethod.mqtt_dump => PyRet.pyDictAnyAny
  | PMethod.get_percentage => PyRet.pyIntStrNone
  | PMethod.get_state => PyRet.pyGcodeState
  | PMethod.get_print_speed => PyRet.pyInt
  | PMethod.get_bed_temperature => PyRet.pyOptionalFloat
  | PMethod.get_nozzle_temperature => PyRet.pyOptionalFloat
  | PMethod.get_chamber_temperature => PyRet.pyOptionalFloat
  | PMethod.nozzle_type => PyRet.pyNozzleType
  | PMethod.nozzle_diameter => PyRet.pyFloat
  | PMethod.get_file_name => PyRet.pyStr
  | PMethod.get_light_state => PyRet.pyStr
  | PMethod.turn_light_on => PyRet.pyBool
  | PMethod.turn_light_off => PyRet.pyBool
  | PMethod.gcode => PyRet.pyBool
  | PMethod.upload_file => PyRet.pyStr
  | PMethod.start_print => PyRet.pyBool
  | PMethod.stop_print => PyRet.pyBool
  | PMethod.pause_print => PyRet.pyBool
  | PMethod.resume_print => PyRet.pyBool
  | PMethod.set_bed_temperature => PyRet.pyBool
  | PMethod.home_printer => PyRet.pyBool
  | PMethod.move_z_axis => PyRet.pyBool
  | PMethod.set_filament_printer => PyRet.pyBool
  | PMethod.set_nozzle_temperature => PyRet.pyBool
  | PMethod.set_print_speed => PyRet.pyBool
  | PMethod.delete_file => PyRet.pyStr
  | PMethod.calibrate_printer => PyRet.pyBool
  | PMethod.load_filament_spool => PyRet.pyBool
  | PMethod.unload_filament_spool => PyRet.pyBool
  | PMethod.retry_filament_action => PyRet.pyBool
  | PMethod.get_camera_frame => PyRet.pyStr
  | PMethod.get_camera_image => PyRet.pyImage
  | PMethod.get_current_state => PyRet.pyPrintState
  | PMethod.get_skipped_objects => PyRet.pyListInt
  | PMethod.skip_objects => PyRet.pyBool
  | PMethod.set_part_fan_speed => PyRet.pyBool
  | PMethod.set_aux_fan_speed => PyRet.pyBool
  | PMethod.set_chamber_fan_speed => PyRet.pyBool
  | PMethod.set_auto_step_recovery => PyRet.pyBool
  | PMethod.vt_tray => PyRet.pyFilamentTray
  | PMethod.printer_ams_hub => PyRet.pyAMSHub
  | PMethod.subtask_name => PyRet.pyStr
  | PMethod.gcode_file => PyRet.pyStr
  | PMethod.print_error_code => PyRet.pyInt
  | PMethod.print_type => PyRet.pyStr
  | PMethod.wifi_signal => PyRet.pyStr

/-- The mutating commands enumerated by the claim under verification:
`gcode`, `start_print`, `stop_print`, `pause_print`, `resume_print`,
the temperature, fan and speed setters, calibration, the filament
load/unload/retry commands, `skip_objects`, light control,
`upload_file`, `delete_file`, and the stop/disconnect operations. -/
def claimedMutatingCommands : List PMethod :=
  [PMethod.gcode, PMethod.start_print, PMethod.stop_print,
   PMethod.pause_print, PMethod.resume_print,
   PMethod.set_bed_temperature, PMethod.set_nozzle_temperature,
   PMethod.set_part_fan_speed, PMethod.set_aux_fan_speed,
   PMethod.set_chamber_fan_speed, PMethod.set_print_speed,
   PMethod.calibrate_printer, PMethod.load_filament_spool,
   PMethod.unload_filament_spool, PMethod.retry_filament_action,
   PMethod.skip_objects, PMethod.turn_light_on, PMethod.turn_light_off,
   PMethod.upload_file, PMethod.delete_file, PMethod.mqtt_stop,
   PMethod.camera_stop, PMethod.disconnect]

/-- The mutating commands of `IPrinter` that are in fact annotated
`-> bool` in `printer_interface.py` (the enumerated commands without
`upload_file`, `delete_file` and the stop/disconnect operations, plus
the remaining boolean-returning mutators `home_printer`, `move_z_axis`,
`set_filament_printer` and `set_auto_step_recovery`). -/
def boolMutatingCommands : List PMethod :=
  [PMethod.gcode, PMethod.start_print, PMethod.stop_print,
   PMethod.pause_print, PMethod.resume_print,
   PMethod.set_bed_temperature, PMethod.set_nozzle_temperature,
   PMethod.set_part_fan_speed, PMethod.set_aux_fan_speed,
   PMethod.set_chamber_fan_speed, PMethod.set_print_speed,
   PMethod.calibrate_printer, PMethod.load_filament_spool,
   PMethod.unload_filament_spool, PMethod.retry_filament_action,
   PMethod.skip_objects, PMethod.turn_light_on, PMethod.turn_light_off,
   PMethod.home_printer, PMethod.move_z_axis,
   PMethod.set_filament_printer, PMethod.set_auto_step_recovery]

/-! Concrete sample data used by the witnesses. -/

/-- A valid raw tray record carrying every required field and no
explicit index field. -/
def sampleRecord : Record :=
  [("k", RawVal.vNum 0), ("n", RawVal.vInt 1),
   ("tag_uid", RawVal.vStr "TAG0"), ("tray_id_name", RawVal.vStr "T0"),
   ("tray_info_idx", RawVal.vStr "GFA00"),
   ("tray_type", RawVal.vStr "PLA"),
   ("tray_sub_brands", RawVal.vStr "Basic"),
   ("tray_color", RawVal.vStr "FF0000FF"),
   ("tray_weight", RawVal.vStr "1000"),
   ("tray_diameter", RawVal.vStr "1.75"),
   ("tray_temp", RawVal.vStr "220"), ("tray_time", RawVal.vStr "8"),
   ("bed_temp_type", RawVal.vStr "1"), ("bed_temp", RawVal.vStr "35"),
   ("nozzle_temp_max", RawVal.vInt 240),
   ("nozzle_temp_min", RawVal.vInt 190),
   ("xcam_info", RawVal.vStr "000000"),
   ("tray_uuid", RawVal.vStr "UUID0")]

/-- A second valid raw tray record, differing from `sampleRecord` in
its colour and identity fields. -/
def sampleRecord2 : Record :=
  [("k", RawVal.vNum 0), ("n", RawVal.vInt 1),
   ("tag_uid", RawVal.vStr "TAG1"), ("tray_id_name", RawVal.vStr "T1"),
   ("tray_info_idx", RawVal.vStr "GFA00"),
   ("tray_type", RawVal.vStr "PLA"),
   ("tray_sub_brands", RawVal.vStr "Basic"),
   ("tray_color", RawVal.vStr "0000FFFF"),
   ("tray_weight", RawVal.vStr "1000"),
   ("tray_diameter", RawVal.vStr "1.75"),
   ("tray_temp", RawVal.vStr "220"), ("tray_time", RawVal.vStr "8"),
   ("bed_temp_type", RawVal.vStr "1"), ("bed_temp", RawVal.vStr "35"),
   ("nozzle_temp_max", RawVal.vInt 240),
   ("nozzle_temp_min", RawVal.vInt 190),
   ("xcam_info", RawVal.vStr "000000"),
   ("tray_uuid", RawVal.vStr "UUID1")]

/-- The tray parsed from `sampleRecord`. -/
def sampleTray : FilamentTray :=
  ⟨0, 1, "TAG0", "T0", "GFA00", "PLA", "Basic", "FF0000FF", "1000",
   "1.75", "220", "8", "1", "35", 240, 190, "000000", "UUID0", none⟩

/-- The tray parsed from `sampleRecord2`. -/
def sampleTray2 : FilamentTray :=
  ⟨0, 1, "TAG1", "T1", "GFA00", "PLA", "Basic", "0000FFFF", "1000",
   "1.75", "220", "8", "1", "35", 240, 190, "000000", "UUID1", none⟩

/-- An AMS unit with no tray set at any index. -/
def emptyAMS : AMS :=
  ⟨0, 0, fun _ => none⟩

/-- An AMS unit holding one tray, at index 5. -/
def presetAMS : AMS :=
  ⟨0, 0, fun j => if j = 5 then some sampleTray2 else none⟩

/-- An AMS hub with no AMS unit registered at any id. -/
def emptyHub : AMSHub :=
  ⟨fun _ => none⟩

/-- A camera in the `Stopped` lifecycle state. -/
def stoppedCam : PrinterCamera :=
  { mkPrinterCamera "printer.local" "code" 6000 "bblp" with
    status := CamStatus.stopped }

/-- A camera in the `Running` lifecycle state. -/
def runningCam : PrinterCamera :=
  { mkPrinterCamera "printer.local" "code" 6000 "bblp" with
    status := CamStatus.running }

/-! Helper lemmas. -/

/-- Destructing a successful `Except` bind. -/
theorem exceptBind_ok {ε α β : Type} {e : Except ε α}
    {f : α → Except ε β} {b : β} (h : e >>= f = Except.ok b) :
    ∃ a, e = Except.ok a ∧ f a = Except.ok b := by
  cases e with
  | ok a => exact ⟨a, rfl, h⟩
  | error err => exact Except.noConfusion h

/-- A successful required string-field lookup means the key is present
in the record. -/
theorem getStr_ok_lookup {r : Record} {key : String} {s : String}
    (h : getStr r key = Except.ok s) :
    (r.lookup key).isSome = true := by
  unfold getStr at h
  cases hl : r.lookup key with
  | none => rw [hl] at h; exact Except.noConfusion h
  | some v => simp [hl]

/-- A successful required integer-field lookup means the key is present
in the record. -/
theorem getInt_ok_lookup {r : Record} {key : String} {n : Int}
    (h : getInt r key = Except.ok n) :
    (r.lookup key).isSome = true := by
  unfold getInt at h
  cases hl : r.lookup key with
  | none => rw [hl] at h; exact Except.noConfusion h
  | some v => simp [hl]

/-- A successful required float-field lookup means the key is present
in the record. -/
theorem getNum_ok_lookup {r : Record} {key : String} {q : Rat}
    (h : getNum r key = Except.ok q) :
    (r.lookup key).isSome = true := by
  unfold getNum at h
  cases hl : r.lookup key with
  | none => rw [hl] at h; exact Except.noConfusion h
  | some v => simp [hl]

/-- `getStr` depends on the record only through the looked-up key. -/
theorem getStr_congr {r r2 : Record} (key : String)
    (h : r.lookup key = r2.lookup key) :
    getStr r key = getStr r2 key := by
  unfold getStr
  rw [h]

/-- `getInt` depends on the record only through the looked-up key. -/
theorem getInt_congr {r r2 : Record} (key : String)
    (h : r.lookup key = r2.lookup key) :
    getInt r key = getInt r2 key := by
  unfold getInt
  rw [h]

/-- `getNum` depends on the record only through the looked-up key. -/
theorem getNum_congr {r r2 : Record} (key : String)
    (h : r.lookup key = r2.lookup key) :
    getNum r key = getNum r2 key := by
  unfold getNum
  rw [h]

/-- `from_dict` depends on the record only through the lookups of the
declared field names. -/
theorem from_dict_congr {r r2 : Record}
    (h : ∀ key ∈ declaredFieldNames, r.lookup key = r2.lookup key) :
    from_dict r = from_dict r2 := by
  unfold from_dict
  rw [getNum_congr "k" (h "k" (by decide)),
      getInt_congr "n" (h "n" (by decide)),
      getStr_congr "tag_uid" (h "tag_uid" (by decide)),
      getStr_congr "tray_id_name" (h "tray_id_name" (by decide)),
      getStr_congr "tray_info_idx" (h "tray_info_idx" (by decide)),
      getStr_congr "tray_type" (h "tray_type" (by decide)),
      getStr_congr "tray_sub_brands" (h "tray_sub_brands" (by decide)),
      getStr_congr "tray_color" (h "tray_color" (by decide)),
      getStr_congr "tray_weight" (h "tray_weight" (by decide)),
      getStr_congr "tray_diameter" (h "tray_diameter" (by decide)),
      getStr_congr "tray_temp" (h "tray_temp" (by decide)),
      getStr_congr "tray_time" (h "tray_time" (by decide)),
      getStr_congr "bed_temp_type" (h "bed_temp_type" (by decide)),
      getStr_congr "bed_temp" (h "bed_temp" (by decide)),
      getInt_congr "nozzle_temp_max" (h "nozzle_temp_max" (by decide)),
      getInt_congr "nozzle_temp_min" (h "nozzle_temp_min" (by decide)),
      getStr_congr "xcam_info" (h "xcam_info" (by decide)),
      getStr_congr "tray_uuid" (h "tray_uuid" (by decide)),
      h "cols" (by decide)]

/-- Filtering a record down to its declared keys preserves the lookup
of every declared key. -/
theorem lookup_filter_declared (r : Record) (key : String)
    (hk : declaredFieldNames.contains key = true) :
    (r.filter (fun p => declaredFieldNames.contains p.1)).lookup key =
      r.lookup key := by
  induction r with
  | nil => rfl
  | cons hd tl ih =>
    by_cases h1 : declaredFieldNames.contains hd.1 = true
    · rw [List.filter_cons_of_pos (by simpa using h1)]
      cases hd with
      | mk hk2 hv =>
        by_cases h2 : key = hk2
        · subst h2
          simp [List.lookup]
        · simp only [List.lookup]
          rw [show (key == hk2) = false by simpa using h2]
          exact ih
    · rw [List.filter_cons_of_neg (by simpa using h1)]
      cases hd with
      | mk hk2 hv =>
        have h2 : key ≠ hk2 := by
          intro he
          subst he
          exact h1 hk
        simp only [List.lookup]
        rw [show (key == hk2) = false by simpa using h2]
        exact ih

/-! Claim theorems. -/

/-- C1: for every AMS unit and every index `i` at which no tray has
been set, the lenient getter `get_filament_tray i` returns the explicit
absent value and never raises, while the strict indexing operator
`ams[i]` for the same `i` raises `KeyNotFoundError`; the AMS hub's
strict indexed accessor raises `KeyNotFoundError` for an absent
AMS-unit id while lookup in the underlying `ams_hub` mapping yields the
absent value. -/
theorem lenient_strict_access_asymmetry (s : AMS) (i : Int)
    (hub : AMSHub) (a : Int) (hs : s.filament_trays i = none)
    (hh : hub.ams_hub a = none) :
    s.get_filament_tray i = none ∧
    s.getitem i = Except.error KeyErr.keyNotFoundError ∧
    hub.ams_hub a = none ∧
    hub.getitem a = Except.error KeyErr.keyNotFoundError := by
  refine ⟨hs, ?_, hh, ?_⟩
  · simp [AMS.getitem, hs]
  · simp [AMSHub.getitem, hh]

/-- Witness for C1 at the empty AMS unit and the empty hub, index 0. -/
theorem lenient_strict_access_asymmetry_witness :
    emptyAMS.get_filament_tray 0 = none ∧
    emptyAMS.getitem 0 = Except.error KeyErr.keyNotFoundError ∧
    emptyHub.ams_hub 0 = none ∧
    emptyHub.getitem 0 = Except.error KeyErr.keyNotFoundError :=
  lenient_strict_access_asymmetry emptyAMS 0 emptyHub 0 rfl rfl

/-- C2 counterexample: `delete_file` is among the mutating commands the
claim enumerates, yet its declared return type in
`printer_interface.py` is `str` (the path of the deleted file), not
`bool`. -/
theorem mutating_commands_bool_counterexample :
    PMethod.delete_file ∈ claimedMutatingCommands ∧
    printerReturnType PMethod.delete_file ≠ PyRet.pyBool := by
  decide

/-- C2 (amended): every mutating command of `IPrinter` returns `bool`
except `upload_file` and `delete_file`, which return the file path
(`str`), and the stop/disconnect operations `mqtt_stop`, `camera_stop`
and `disconnect`, which return `None`. -/
theorem mutating_commands_return_types :
    boolMutatingCommands.all
      (fun m => printerReturnType m == PyRet.pyBool) = true ∧
    printerReturnType PMethod.upload_file = PyRet.pyStr ∧
    printerReturnType PMethod.delete_file = PyRet.pyStr ∧
    printerReturnType PMethod.mqtt_stop = PyRet.pyNoneRet ∧
    printerReturnType PMethod.camera_stop = PyRet.pyNoneRet ∧
    printerReturnType PMethod.disconnect = PyRet.pyNoneRet := by
  decide

/-- C4: `set_filament_tray tray i` followed by `get_filament_tray i`
returns exactly `tray`, and `set_filament_tray` is an upsert that
silently overwrites any tray previously present at `i`. -/
theorem set_get_roundtrip_and_upsert (s : AMS) (t t2 : FilamentTray)
    (i : Int) :
    (s.set_filament_tray t i).get_filament_tray i = some t ∧
    (s.set_filament_tray t2 i).set_filament_tray t i =
      s.set_filament_tray t i := by
  constructor
  · simp [AMS.set_filament_tray, AMS.get_filament_tray]
  · simp only [AMS.set_filament_tray]
    congr 1
    funext j
    by_cases h : j = i <;> simp [h]

/-- C6: the `filament` projection copies the tray's nozzle-temperature
bounds unchanged, so whenever the tray's temperature fields are
well-formed (`nozzle_temp_min ≤ nozzle_temp_max`) the projected
`AMSFilamentSettings` satisfies the same invariant. -/
theorem filament_projection_temp_invariant (t : FilamentTray)
    (h : t.nozzle_temp_min ≤ t.nozzle_temp_max) :
    t.filament.nozzle_temp_min ≤ t.filament.nozzle_temp_max ∧
    t.filament.nozzle_temp_min = t.nozzle_temp_min ∧
    t.filament.nozzle_temp_max = t.nozzle_temp_max :=
  ⟨h, rfl, rfl⟩

/-- Witness for C6 at `sampleTray`, whose bounds are 190 and 240. -/
theorem filament_projection_temp_invariant_witness :
    sampleTray.filament.nozzle_temp_min ≤
      sampleTray.filament.nozzle_temp_max ∧
    sampleTray.filament.nozzle_temp_min = sampleTray.nozzle_temp_min ∧
    sampleTray.filament.nozzle_temp_max = sampleTray.nozzle_temp_max :=
  filament_projection_temp_invariant sampleTray (by decide)

/-- C7: a freshly constructed camera holds no frame, neither `start`
nor `stop` changes the last-frame slot, and `get_frame_as_base64`
raises `NoFrameAvailableError` exactly when `last_frame` is absent. -/
theorem camera_no_frame_behaviour (hostname access_code : String)
    (port : Int) (username : String) (enc : List Nat → String)
    (s : PrinterCamera) :
    (mkPrinterCamera hostname access_code port username).last_frame =
      none ∧
    s.start.1.last_frame = s.last_frame ∧
    s.stop.last_frame = s.last_frame ∧
    (PrinterCamera.get_frame_as_base64 enc s =
        Except.error CamErr.noFrameAvailableError ↔
      s.last_frame = none) := by
  refine ⟨rfl, ?_, ?_, ?_⟩
  · by_cases h : s.status = CamStatus.running <;>
      simp [PrinterCamera.start, h]
  · by_cases h : s.status = CamStatus.running <;>
      simp [PrinterCamera.stop, h]
  · cases h : s.last_frame <;>
      simp [PrinterCamera.get_frame_as_base64, h]

/-- C8: on a camera that is already stopped, `stop` is a no-op both
times and leaves `is_alive = false`; `start` on an already-running
camera is a no-op returning `false`. -/
theorem camera_stop_idempotent_start_noop (s r : PrinterCamera)
    (hs : s.status = CamStatus.stopped)
    (hr : r.status = CamStatus.running) :
    s.stop = s ∧ s.stop.stop = s.stop ∧ s.stop.stop.is_alive = false ∧
    r.start = (r, false) := by
  have h1 : s.stop = s := by
    simp [PrinterCamera.stop, hs]
  refine ⟨h1, ?_, ?_, ?_⟩
  · simp only [h1]
  · simp only [h1]
    simp [PrinterCamera.is_alive, hs]
  · simp [PrinterCamera.start, hr]

/-- Witness for C8 at a stopped and a running concrete camera. -/
theorem camera_stop_idempotent_start_noop_witness :
    stoppedCam.stop = stoppedCam ∧
    stoppedCam.stop.stop = stoppedCam.stop ∧
    stoppedCam.stop.stop.is_alive = false ∧
    runningCam.start = (runningCam, false) :=
  camera_stop_idempotent_start_noop stoppedCam runningCam rfl rfl

/-- C9: with `gcode_check = true` an invalid command list signals
`InvalidGcodeError` and nothing is transmitted; a command list passing
local validation is transmitted as-is; with `gcode_check = false`
validation is skipped and every command list is transmitted as-is. -/
theorem gcode_check_validation (valid : String → Bool)
    (cmds : List String)
    (hinv : cmds.any (fun c => ! valid c) = true) :
    gcodeCommand valid cmds true =
      (some GcodeError.invalidGcodeError, []) ∧
    (∀ cmds2 : List String, cmds2.any (fun c => ! valid c) = false →
      gcodeCommand valid cmds2 true = (none, cmds2)) ∧
    (∀ cmds3 : List String, gcodeCommand valid cmds3 false =
      (none, cmds3)) := by
  refine ⟨?_, ?_, ?_⟩
  · simp [gcodeCommand, hinv]
  · intro cmds2 h2
    simp [gcodeCommand, h2]
  · intro cmds3
    simp [gcodeCommand]

/-- Witness for C9 with a validator rejecting the literal command
`"BAD"` and the singleton invalid command list. -/
theorem gcode_check_validation_witness :
    gcodeCommand (fun c => !(c == "BAD")) ["BAD"] true =
      (some GcodeError.invalidGcodeError, []) ∧
    (∀ cmds2 : List String,
      cmds2.any (fun c => ! (fun c => !(c == "BAD")) c) = false →
      gcodeCommand (fun c => !(c == "BAD")) cmds2 true = (none, cmds2)) ∧
    (∀ cmds3 : List String,
      gcodeCommand (fun c => !(c == "BAD")) cmds3 false =
        (none, cmds3)) :=
  gcode_check_validation (fun c => !(c == "BAD")) ["BAD"] (by decide)

/-- C10: `AMSFilamentSettings` has structural equality (two values are
equal exactly when the four declared fields are pairwise equal), and
any hash computed from the declared field tuple — as the frozen
dataclass's derived hash is — is consistent with that equality. -/
theorem amsfilamentsettings_structural_equality
    (a b : AMSFilamentSettings) :
    (a = b ↔
      (a.tray_info_idx = b.tray_info_idx ∧
       a.nozzle_temp_min = b.nozzle_temp_min ∧
       a.nozzle_temp_max = b.nozzle_temp_max ∧
       a.tray_type = b.tray_type)) ∧
    (∀ hashf : String × Int × Int × String → Nat, a = b →
      hashf a.fieldsTuple = hashf b.fieldsTuple) := by
  constructor
  · cases a
    cases b
    simp [AMSFilamentSettings.mk.injEq]
  · intro hashf h
    rw [h]

/-- Witness for C10 at two structurally equal concrete settings and a
concrete hash function. -/
theorem amsfilamentsettings_structural_equality_witness :
    AMSFilamentSettings.mk "GFA00" 190 240 "PLA" =
      AMSFilamentSettings.mk "GFA00" 190 240 "PLA" ∧
    (fun p => p.2.1.toNat)
        (AMSFilamentSettings.mk "GFA00" 190 240 "PLA").fieldsTuple =
      (fun p => p.2.1.toNat)
        (AMSFilamentSettings.mk "GFA00" 190 240 "PLA").fieldsTuple :=
  ⟨(amsfilamentsettings_structural_equality _ _).1.mpr (by decide),
   (amsfilamentsettings_structural_equality _ _).2
     (fun p => p.2.1.toNat) rfl⟩

/-- C5: for every raw record that parses successfully, the parsed
tray's `keys()` equals the declared field-name set (an
order-independent set); a successful parse requires every required key
to be present (contrapositive: a missing required key makes `from_dict`
fail, and its only error is `MissingFieldError`); and unknown keys are
ignored — dropping every undeclared key from a record leaves the result
of `from_dict` unchanged. -/
theorem from_dict_keys_contract :
    (∀ (r : Record) (t : FilamentTray), from_dict r = Except.ok t →
      FilamentTray.keys t = declaredFieldSet ∧
      ∀ key ∈ requiredFieldNames, (r.lookup key).isSome = true) ∧
    (∀ r : Record,
      from_dict (r.filter (fun p => declaredFieldNames.contains p.1)) =
        from_dict r) := by
  constructor
  · intro r t h
    refine ⟨rfl, ?_⟩
    unfold from_dict at h
    obtain ⟨k, h1, h⟩ := exceptBind_ok h
    obtain ⟨n, h2, h⟩ := exceptBind_ok h
    obtain ⟨tag_uid, h3, h⟩ := exceptBind_ok h
    obtain ⟨tray_id_name, h4, h⟩ := exceptBind_ok h
    obtain ⟨tray_info_idx, h5, h⟩ := exceptBind_ok h
    obtain ⟨tray_type, h6, h⟩ := exceptBind_ok h
    obtain ⟨tray_sub_brands, h7, h⟩ := exceptBind_ok h
    obtain ⟨tray_color, h8, h⟩ := exceptBind_ok h
    obtain ⟨tray_weight, h9, h⟩ := exceptBind_ok h
    obtain ⟨tray_diameter, h10, h⟩ := exceptBind_ok h
    obtain ⟨tray_temp, h11, h⟩ := exceptBind_ok h
    obtain ⟨tray_time, h12, h⟩ := exceptBind_ok h
    obtain ⟨bed_temp_type, h13, h⟩ := exceptBind_ok h
    obtain ⟨bed_temp, h14, h⟩ := exceptBind_ok h
    obtain ⟨nozzle_temp_max, h15, h⟩ := exceptBind_ok h
    obtain ⟨nozzle_temp_min, h16, h⟩ := exceptBind_ok h
    obtain ⟨xcam_info, h17, h⟩ := exceptBind_ok h
    obtain ⟨tray_uuid, h18, h⟩ := exceptBind_ok h
    intro key hkey
    simp only [requiredFieldNames, List.mem_cons,
      List.not_mem_nil, or_false] at hkey
    rcases hkey with rfl | rfl | rfl | rfl | rfl | rfl | rfl | rfl |
      rfl | rfl | rfl | rfl | rfl | rfl | rfl | rfl | rfl | rfl
    · exact getNum_ok_lookup h1
    · exact getInt_ok_lookup h2
    · exact getStr_ok_lookup h3
    · exact getStr_ok_lookup h4
    · exact getStr_ok_lookup h5
    · exact getStr_ok_lookup h6
    · exact getStr_ok_lookup h7
    · exact getStr_ok_lookup h8
    · exact getStr_ok_lookup h9
    · exact getStr_ok_lookup h10
    · exact getStr_ok_lookup h11
    · exact getStr_ok_lookup h12
    · exact getStr_ok_lookup h13
    · exact getStr_ok_lookup h14
    · exact getInt_ok_lookup h15
    · exact getInt_ok_lookup h16
    · exact getStr_ok_lookup h17
    · exact getStr_ok_lookup h18
  · intro r
    exact from_dict_congr (fun key hk =>
      lookup_filter_declared r key (by simpa using hk))

/-- Witness for C5 at `sampleRecord`, which parses to `sampleTray`. -/
theorem from_dict_keys_contract_witness :
    FilamentTray.keys sampleTray = declaredFieldSet ∧
    (sampleRecord.lookup "tag_uid").isSome = true :=
  ⟨(from_dict_keys_contract.1 sampleRecord sampleTray rfl).1,
   (from_dict_keys_contract.1 sampleRecord sampleTray rfl).2
     "tag_uid" (by decide)⟩

/-- When no record carries an explicit index, the entries built by
`buildTrayEntries` starting at `pos` hold, at key `pos + i`, exactly
the tray parsed from the record at position `i`. -/
theorem buildTrayEntries_lookup_at {records : List Record} :
    ∀ {pos : Nat} {entries : List (Int × FilamentTray)},
    (∀ r ∈ records, trayExplicitIndex r = none) →
    buildTrayEntries pos records = Except.ok entries →
    ∀ (i : Nat) (h : i < records.length),
      ∃ t, from_dict (records.get ⟨i, h⟩) = Except.ok t ∧
        alookup (Int.ofNat (pos + i)) entries = some t := by
  induction records with
  | nil =>
    intro pos entries hexp hb i h
    exact absurd h (by simp)
  | cons r rest ih =>
    intro pos entries hexp hb i h
    unfold buildTrayEntries at hb
    simp only [hexp r (List.mem_cons_self r rest),
      Option.getD_none] at hb
    obtain ⟨t, hft, hb⟩ := exceptBind_ok hb
    obtain ⟨tail, htail, hb⟩ := exceptBind_ok hb
    have hent : ((Int.ofNat pos, t) :: tail) = entries :=
      Except.ok.inj hb
    subst hent
    cases i with
    | zero =>
      refine ⟨t, hft, ?_⟩
      simp [alookup]
    | succ i2 =>
      have h2 : i2 < rest.length := by
        simpa using h
      obtain ⟨t2, hft2, hl2⟩ :=
        ih (fun r2 hr2 => hexp r2 (List.mem_cons_of_mem r hr2))
          htail i2 h2
      refine ⟨t2, ?_, ?_⟩
      · simpa using hft2
      · have hne : Int.ofNat ((pos + 1) + i2) ≠ Int.ofNat pos := by
          simp only [ne_eq, Int.ofNat.injEq]
          omega
        have heq : pos + (i2 + 1) = (pos + 1) + i2 := by
          omega
        rw [heq]
        simp only [alookup, if_neg hne]
        exact hl2

/-- When no record carries an explicit index, the entries built by
`buildTrayEntries` starting at `pos` hold nothing at any key outside
`pos, …, pos + length - 1`. -/
theorem buildTrayEntries_lookup_none {records : List Record} :
    ∀ {pos : Nat} {entries : List (Int × FilamentTray)},
    (∀ r ∈ records, trayExplicitIndex r = none) →
    buildTrayEntries pos records = Except.ok entries →
    ∀ j : Int,
      (∀ i : Nat, i < records.length → j ≠ Int.ofNat (pos + i)) →
      alookup j entries = none := by
  induction records with
  | nil =>
    intro pos entries hexp hb j hj
    have hent : ([] : List (Int × FilamentTray)) = entries :=
      Except.ok.inj hb
    subst hent
    rfl
  | cons r rest ih =>
    intro pos entries hexp hb j hj
    unfold buildTrayEntries at hb
    simp only [hexp r (List.mem_cons_self r rest),
      Option.getD_none] at hb
    obtain ⟨t, hft, hb⟩ := exceptBind_ok hb
    obtain ⟨tail, htail, hb⟩ := exceptBind_ok hb
    have hent : ((Int.ofNat pos, t) :: tail) = entries :=
      Except.ok.inj hb
    subst hent
    have hne : j ≠ Int.ofNat pos := by
      have := hj 0 (by simp)
      simpa using this
    simp only [alookup, if_neg hne]
    refine ih (fun r2 hr2 => hexp r2 (List.mem_cons_of_mem r hr2))
      htail j ?_
    intro i hi
    have := hj (i + 1) (by simpa using Nat.succ_lt_succ hi)
    have heq : pos + (i + 1) = (pos + 1) + i := by
      omega
    rwa [heq] at this

/-- C3: for every AMS state and every sequence of raw tray records
carrying no explicit index fields, a successful `process_trays` yields
a state whose indexed reads at `0, …, len-1` return exactly the trays
parsed from the records in input order, and whose reads at every other
index return the absent value — the previous tray mapping is replaced,
not merged with. -/
theorem process_trays_positional_replace (s : AMS)
    (records : List Record) (s2 : AMS)
    (hexp : ∀ r ∈ records, trayExplicitIndex r = none)
    (hok : s.process_trays records = Except.ok s2) :
    (∀ (i : Nat) (h : i < records.length),
      ∃ t, from_dict (records.get ⟨i, h⟩) = Except.ok t ∧
        s2.get_filament_tray (Int.ofNat i) = some t) ∧
    (∀ j : Int, (∀ i : Nat, i < records.length → j ≠ Int.ofNat i) →
      s2.get_filament_tray j = none) := by
  unfold AMS.process_trays at hok
  obtain ⟨entries, hbuild, hret⟩ := exceptBind_ok hok
  have hs2 :
      ({ s with filament_trays := fun j => alookup j entries } : AMS) =
        s2 :=
    Except.ok.inj hret
  subst hs2
  constructor
  · intro i h
    obtain ⟨t, hft, hl⟩ := buildTrayEntries_lookup_at hexp hbuild i h
    refine ⟨t, hft, ?_⟩
    simpa [AMS.get_filament_tray] using hl
  · intro j hj
    have hl := buildTrayEntries_lookup_none hexp hbuild j
      (fun i hi => by simpa using hj i hi)
    simpa [AMS.get_filament_tray] using hl

/-- The AMS state produced by processing the two sample records from
`presetAMS` (which held a tray at index 5). -/
def procAMS : AMS :=
  match presetAMS.process_trays [sampleRecord, sampleRecord2] with
  | Except.ok a => a
  | Except.error _ => presetAMS

/-- Witness for C3 at the two sample records processed over
`presetAMS`: the reads at 0 and 1 return the parsed trays, and the
previously set index 5 now reads absent. -/
theorem process_trays_positional_replace_witness :
    (∃ t, from_dict sampleRecord = Except.ok t ∧
      procAMS.get_filament_tray (Int.ofNat 0) = some t) ∧
    (∃ t, from_dict sampleRecord2 = Except.ok t ∧
      procAMS.get_filament_tray (Int.ofNat 1) = some t) ∧
    procAMS.get_filament_tray 5 = none := by
  have hmain := process_trays_positional_replace presetAMS
    [sampleRecord, sampleRecord2] procAMS (by decide) rfl
  refine ⟨?_, ?_, ?_⟩
  · exact hmain.1 0 (by decide)
  · exact hmain.1 1 (by decide)
  · exact hmain.2 5 (by decide)

end Dorable3DPrinterApi
